import Mathlib

/-!
# Verification of the polara evaluation pipelines

Shallow embedding of the hyperparameter-search and model-evaluation harness
in polara/evaluation/pipelines.py, together with proofs about the claims of
its specification.

Embedding conventions, applied uniformly below:
* Python runtime values that flow through the open-schema configuration
  machinery are modelled by the inductive type PVal; the floating
  not-a-number sentinel is the constructor PVal.nan, which compares
  unequal to itself under the embedded Python equality val_eq.
* Python exceptions are modelled by Except with the error type PyErr;
  TypeError, ValueError and NotImplementedError get dedicated
  constructors, and model-side failures raised by a build or an evaluate
  call are PyErr.external codes.
* The externally supplied model object (an out-of-scope collaborator per the
  spec) is modelled from its interface contract: a record with a rank-like
  attribute, a factors artifact, a verbosity flag, a readiness flag, a
  cached-recommendations slot, and a method label.  The Python code writes
  both model.rank and its backing field model._rank; both denote the same
  record field here.  The build operation and the evaluator are parameters
  (the evaluator returns the already-extracted scalar score for the model's
  method label, and does not mutate the model).
* Python dicts are modelled as association lists with Python's update
  semantics (dict_insert keeps the position of an existing key), and
  pandas Series.idxmax is modelled by idxmax, returning the first
  maximizer in series order and a ValueError on an empty series.
* The config / iterator keyword arguments of the rank optimizers are left
  at their defaults (no initial config, identity iterator), which is how
  every claim under scrutiny exercises them.
-/

/-- Python-style runtime values for open-schema model attributes and
configuration entries.  nan models the floating not-a-number sentinel. -/
inductive PVal : Type
  | int : Int → PVal
  | str : String → PVal
  | none : PVal
  | nan : PVal
deriving DecidableEq, Repr

/-- Embedded Python equality on values: nan compares unequal to every
value, itself included (this is exactly the value == value test that
set_config uses to detect the not-a-number sentinel). -/
def val_eq : PVal → PVal → Bool
  | PVal.int a, PVal.int b => a == b
  | PVal.str a, PVal.str b => a == b
  | PVal.none, PVal.none => true
  | _, _ => false

/-- The Python exceptions that the pipeline code can raise or propagate.
Exceptions raised inside an external build or evaluate call are carried as
external codes. -/
inductive PyErr : Type
  | typeError
  | valueError
  | notImplemented
  | external : Nat → PyErr
deriving DecidableEq, Repr

/-- A Python argument that may or may not be an int, used to model the
isinstance(n, int) check of random_grid. -/
inductive PyObj : Type
  | int : Int → PyObj
  | other : String → PyObj
deriving DecidableEq, Repr

instance {ε α : Type} [DecidableEq ε] [DecidableEq α] : DecidableEq (Except ε α) := fun a b =>
  match a, b with
  | Except.error x, Except.error y =>
    decidable_of_iff (x = y) ⟨fun h => by rw [h], fun h => by injection h⟩
  | Except.error _, Except.ok _ => Decidable.isFalse (fun h => by injection h)
  | Except.ok _, Except.error _ => Decidable.isFalse (fun h => by injection h)
  | Except.ok x, Except.ok y =>
    decidable_of_iff (x = y) ⟨fun h => by rw [h], fun h => by injection h⟩

/-- Python dict assignment d[k] = v on an association list: an existing
key keeps its position and gets the new value, a fresh key is appended. -/
def dict_insert {K V : Type} [DecidableEq K] : List (K × V) → K → V → List (K × V)
  | [], k, v => [(k, v)]
  | p :: rest, k, v => if p.1 = k then (k, v) :: rest else p :: dict_insert rest k v

/-- Python dict / attribute lookup on an association list. -/
def dict_lookup {K V : Type} [DecidableEq K] (k : K) : List (K × V) → Option V
  | [] => Option.none
  | p :: rest => if p.1 = k then Option.some p.2 else dict_lookup k rest

theorem dict_lookup_insert_self {K V : Type} [DecidableEq K] (l : List (K × V)) (k : K) (v : V) :
    dict_lookup k (dict_insert l k v) = Option.some v := by
  induction l with
  | nil => simp [dict_insert, dict_lookup]
  | cons p rest ih =>
    by_cases h : p.1 = k
    · simp [dict_insert, dict_lookup, h]
    · simp [dict_insert, dict_lookup, h, ih]

theorem dict_lookup_insert_ne {K V : Type} [DecidableEq K] (l : List (K × V)) (k k' : K) (v : V)
    (h : k ≠ k') : dict_lookup k (dict_insert l k' v) = dict_lookup k l := by
  have h' : ¬ (k' = k) := fun hh => h hh.symm
  induction l with
  | nil => simp [dict_insert, dict_lookup, h']
  | cons p rest ih =>
    by_cases hp : p.1 = k'
    · have hpk : ¬ (p.1 = k) := fun hh => h' (hp.symm.trans hh)
      simp [dict_insert, dict_lookup, hp, h', hpk]
    · by_cases hk : p.1 = k
      · simp [dict_insert, dict_lookup, hp, hk, h]
      · simp [dict_insert, dict_lookup, hp, hk, ih]

theorem mem_dict_insert {K V : Type} [DecidableEq K] (l : List (K × V)) (k k' : K) (v v' : V)
    (h : (k, v) ∈ dict_insert l k' v') : (k = k' ∧ v = v') ∨ (k, v) ∈ l := by
  induction l with
  | nil =>
    simp [dict_insert] at h
    exact Or.inl ⟨h.1, h.2⟩
  | cons p rest ih =>
    by_cases hp : p.1 = k'
    · simp only [dict_insert, if_pos hp, List.mem_cons] at h
      rcases h with h | h
      · exact Or.inl ⟨congrArg Prod.fst h, congrArg Prod.snd h⟩
      · exact Or.inr (List.mem_cons_of_mem p h)
    · simp only [dict_insert, if_neg hp, List.mem_cons] at h
      rcases h with h | h
      · exact Or.inr (by simp [h])
      · rcases ih h with h' | h'
        · exact Or.inl h'
        · exact Or.inr (List.mem_cons_of_mem p h')

/-- The model collaborator as seen by the generic config search: an
open-schema bag of named attributes plus the dedicated fields the pipeline
reads and writes directly.  (The claims under scrutiny never route the
dedicated fields through the open-schema bag.) -/
structure CModel : Type where
  attrs : List (String × PVal)
  verbose : Bool
  is_ready : Bool
  method : String
deriving DecidableEq, Repr

/-- Python setattr(model, name, value) through the model's generic
named-attribute-set capability. -/
def set_attr (m : CModel) (name : String) (value : PVal) : CModel :=
  { m with attrs := dict_insert m.attrs name value }

/-- set_config(model, config, convert_nan=True) from the source: for every
(name, value) pair, when convert_nan is enabled a value that compares
unequal to itself is replaced by None before assignment, otherwise the raw
value is assigned. -/
def set_config (model : CModel) (config : List (String × PVal)) (convert_nan : Bool) : CModel :=
  config.foldl (fun m p =>
    set_attr m p.1 (if convert_nan then (if val_eq p.2 p.2 then p.2 else PVal.none) else p.2)) model

/-- params_to_dict(names, params) from the source, in its list case: zip
the parameter names against the tuple positions.  (The scalar fallback for
a single non-tuple name is not exercised by any claim.) -/
def params_to_dict (names : List String) (params : List PVal) : List (String × PVal) :=
  List.zip names params

/-- The reset_config argument of find_optimal_config: absent, a fixed
config mapping, a callable taking the model, or a value of any other type
(which the source rejects with NotImplementedError). -/
inductive ResetConfig : Type
  | none'
  | dict' : List (String × PVal) → ResetConfig
  | callable' : (CModel → CModel) → ResetConfig
  | invalid

/-- The body of the finally clause of a find_optimal_config trial: apply
reset_config if present; a dict goes through set_config, a callable is
invoked on the model, anything else raises NotImplementedError. -/
def apply_reset (reset_config : ResetConfig) (model : CModel) : Except PyErr CModel :=
  match reset_config with
  | ResetConfig.none' => Except.ok model
  | ResetConfig.dict' cfg => Except.ok (set_config model cfg true)
  | ResetConfig.callable' f => Except.ok (f model)
  | ResetConfig.invalid => Except.error PyErr.notImplemented

/-- pandas Series.idxmax over a series in insertion order, folded so that
the first occurrence of the maximal value wins. -/
def idxmax_fold {K : Type} : K × Int → List (K × Int) → K
  | best, [] => best.1
  | best, p :: rest => idxmax_fold (if best.2 < p.2 then p else best) rest

/-- pandas Series.idxmax: first maximizer in series order; raises
ValueError on an empty series. -/
def idxmax {K : Type} : List (K × Int) → Except PyErr K
  | [] => Except.error PyErr.valueError
  | p :: rest => Except.ok (idxmax_fold p rest)

/-- The trial loop of find_optimal_config.  Each trial applies the config,
rebuilds when the model is not ready or force_build is set, evaluates, and
records the score; the finally clause applies reset_config on every exit
path, and an exception from build or evaluate propagates after it (a
NotImplementedError from an invalid reset_config replaces the pending
exception, exactly as a raising finally clause does in Python). -/
def config_loop (build : CModel → Except PyErr CModel) (evaluator : CModel → Except PyErr Int)
    (param_names : List String) (reset_config : ResetConfig) (force_build : Bool) :
    List (List PVal) → CModel → List (List PVal × Int) →
    Except PyErr (List (List PVal × Int)) × CModel
  | [], model, grid_results => (Except.ok grid_results, model)
  | params :: rest, model, grid_results =>
    let m1 := set_config model (params_to_dict param_names params) true
    match (if !m1.is_ready || force_build then build m1 else Except.ok m1) with
    | Except.error e =>
        match apply_reset reset_config m1 with
        | Except.error e2 => (Except.error e2, m1)
        | Except.ok m2 => (Except.error e, m2)
    | Except.ok m2 =>
        match evaluator m2 with
        | Except.error e =>
            match apply_reset reset_config m2 with
            | Except.error e2 => (Except.error e2, m2)
            | Except.ok m3 => (Except.error e, m3)
        | Except.ok s =>
            match apply_reset reset_config m2 with
            | Except.error e2 => (Except.error e2, m2)
            | Except.ok m3 =>
                config_loop build evaluator param_names reset_config force_build rest m3
                  (dict_insert grid_results params s)

/-- find_optimal_config from the source.  Applies the initial configs,
sets the search verbosity, runs the trial loop, restores verbosity on
normal completion only, assembles the score series in insertion order and
selects its first maximizer.  Returns the result (best config paired with
the score series, the source's return_scores=True shape) together with the
model state at exit. -/
def find_optimal_config (build : CModel → Except PyErr CModel)
    (evaluator : CModel → Except PyErr Int) (model : CModel)
    (param_grid : List (List PVal)) (param_names : List String)
    (init_config : List (List (String × PVal))) (reset_config : ResetConfig)
    (verbose force_build : Bool) :
    Except PyErr (List (String × PVal) × List (List PVal × Int)) × CModel :=
  let model_verbose := model.verbose
  let model := init_config.foldl (fun m c => set_config m c true) model
  let model := { model with verbose := verbose }
  let out := config_loop build evaluator param_names reset_config force_build param_grid model []
  match out.1 with
  | Except.error e => (Except.error e, out.2)
  | Except.ok grid_results =>
    let m := { out.2 with verbose := model_verbose }
    match idxmax grid_results with
    | Except.error e => (Except.error e, m)
    | Except.ok best_params =>
        (Except.ok (params_to_dict param_names best_params, grid_results), m)

/-- The model collaborator as seen by the SVD-style rank optimizer.  The
Python code writes both model.rank and its private backing field
model._rank (the teardown restores the rank through the backing field);
both denote the rank field here.  recommendations models the
_recommendations cached-results slot (used purely for invalidation), and
factors is the owned named-factors artifact of the last build (a shallow
dict copy in Python is a plain value copy here). -/
structure SvdModel (α : Type) : Type where
  rank : Nat
  factors : α
  verbose : Bool
  is_ready : Bool
  recommendations : Option Nat
  method : String
deriving DecidableEq, Repr

/-- Python max over a non-empty list of ints ([] gives the junk value 0;
the pipeline raises ValueError on an empty argument before ever calling
this). -/
def maxList : List Nat → Nat
  | [] => 0
  | x :: xs => xs.foldl max x

/-- Python min over a non-empty list of ints (same convention). -/
def minList : List Nat → Nat
  | [] => 0
  | x :: xs => xs.foldl min x

/-- sorted(ranks, key=lambda x: -x): stable descending sort. -/
def sort_desc (ranks : List Nat) : List Nat :=
  List.insertionSort (fun a b => b ≤ a) ranks

/-- The candidate loop of find_optimal_svd_rank: assign each rank in
descending order, evaluate, record the score in the res dict, and clear
the cached recommendations; an exception from the evaluator aborts the
loop (the surrounding finally clause lives in find_optimal_svd_rank). -/
def svd_loop {α : Type} (evaluator : SvdModel α → Except PyErr Int) :
    List Nat → SvdModel α → List (Nat × Int) →
    Except PyErr (List (Nat × Int)) × SvdModel α
  | [], model, res => (Except.ok res, model)
  | rank :: rest, model, res =>
    let model := { model with rank := rank }
    match evaluator model with
    | Except.error e => (Except.error e, model)
    | Except.ok s =>
        svd_loop evaluator rest { model with recommendations := Option.none }
          (dict_insert res rank s)

/-- scores.loc[ranks]: reindex the score series by the caller's rank
labels. -/
def series_loc {K : Type} [DecidableEq K] (labels : List K) (series : List (K × Int)) :
    List (K × Int) :=
  labels.filterMap (fun k => (dict_lookup k series).map (fun v => (k, v)))

/-- find_optimal_svd_rank from the source (config=None, identity iterator,
return_scores shape always materialized).  Setup raises ValueError on an
empty candidate list (Python's max of an empty sequence), grows the rank
to max(max(ranks), model.rank), builds once if the model is not ready,
snapshots the factors, runs the descending candidate loop, and in a
finally clause restores _rank and factors (when protect_factors) and the
original verbosity; afterwards it selects the best rank from the score
series.  Returns the result together with the model state at exit. -/
def find_optimal_svd_rank {α : Type} (build : SvdModel α → Except PyErr (SvdModel α))
    (evaluator : SvdModel α → Except PyErr Int) (model : SvdModel α)
    (ranks : List Nat) (protect_factors verbose : Bool) :
    Except PyErr (Nat × List (Nat × Int)) × SvdModel α :=
  match ranks with
  | [] => (Except.error PyErr.valueError, model)
  | _ :: _ =>
    let model_verbose := model.verbose
    let svd_rank := max (maxList ranks) model.rank
    let model := { model with rank := svd_rank }
    match (if model.is_ready then Except.ok model
           else build { model with verbose := verbose }) with
    | Except.error e => (Except.error e, { model with verbose := verbose })
    | Except.ok model =>
      let svd_factors := model.factors
      let out := svd_loop evaluator (sort_desc ranks) model []
      let mfin0 := if protect_factors
        then { out.2 with rank := svd_rank, factors := svd_factors }
        else out.2
      let mfin := { mfin0 with verbose := model_verbose }
      match out.1 with
      | Except.error e => (Except.error e, mfin)
      | Except.ok res =>
        match idxmax res with
        | Except.error e => (Except.error e, mfin)
        | Except.ok best_rank => (Except.ok (best_rank, series_loc ranks res), mfin)

/-- The model collaborator as seen by the Tucker-style rank optimizer:
identical to the SVD one except that the rank-like attribute is the
3-tuple mlrank (with private backing field _mlrank, both denoting the
same field here). -/
structure TuckerModel (α : Type) : Type where
  mlrank : Nat × Nat × Nat
  factors : α
  verbose : Bool
  is_ready : Bool
  recommendations : Option Nat
  method : String
deriving DecidableEq, Repr

/-- Innermost loop of find_optimal_tucker_ranks (over the mode-3
candidates, with r1 and r2 fixed): skip triples failing the pairwise
product dominance rule; otherwise assign the triple, evaluate, record the
score and clear cached recommendations, and in a per-trial finally clause
restore _mlrank to the fixed maximum triple and the factors from the
setup snapshot — on the success path and on the exception path alike. -/
def tucker_loop3 {α : Type} (evaluator : TuckerModel α → Except PyErr Int)
    (tucker_rank : Nat × Nat × Nat) (factors0 : α) (r1 r2 : Nat) :
    List Nat → TuckerModel α → List ((Nat × Nat × Nat) × Int) →
    Except PyErr (List ((Nat × Nat × Nat) × Int)) × TuckerModel α
  | [], model, res => (Except.ok res, model)
  | r3 :: rest, model, res =>
    if r1 * r2 < r3 ∨ r1 * r3 < r2 ∨ r2 * r3 < r1 then
      tucker_loop3 evaluator tucker_rank factors0 r1 r2 rest model res
    else
      let model := { model with mlrank := (r1, r2, r3) }
      match evaluator model with
      | Except.error e =>
          (Except.error e, { model with mlrank := tucker_rank, factors := factors0 })
      | Except.ok s =>
          let model := { model with recommendations := Option.none }
          let model := { model with mlrank := tucker_rank, factors := factors0 }
          tucker_loop3 evaluator tucker_rank factors0 r1 r2 rest model
            (dict_insert res (r1, r2, r3) s)

/-- Middle loop of find_optimal_tucker_ranks (over the mode-2 candidates):
with same_space set, mode-2 candidates differing from the current mode-1
candidate are skipped entirely. -/
def tucker_loop2 {α : Type} (evaluator : TuckerModel α → Except PyErr Int)
    (tucker_rank : Nat × Nat × Nat) (factors0 : α) (same_space : Bool)
    (r1 : Nat) (l3 : List Nat) :
    List Nat → TuckerModel α → List ((Nat × Nat × Nat) × Int) →
    Except PyErr (List ((Nat × Nat × Nat) × Int)) × TuckerModel α
  | [], model, res => (Except.ok res, model)
  | r2 :: rest, model, res =>
    if same_space = true ∧ r2 ≠ r1 then
      tucker_loop2 evaluator tucker_rank factors0 same_space r1 l3 rest model res
    else
      let out := tucker_loop3 evaluator tucker_rank factors0 r1 r2 l3 model res
      match out.1 with
      | Except.error e => (Except.error e, out.2)
      | Except.ok res' =>
          tucker_loop2 evaluator tucker_rank factors0 same_space r1 l3 rest out.2 res'

/-- Outer loop of find_optimal_tucker_ranks (over the mode-1 candidates). -/
def tucker_loop1 {α : Type} (evaluator : TuckerModel α → Except PyErr Int)
    (tucker_rank : Nat × Nat × Nat) (factors0 : α) (same_space : Bool)
    (l2 l3 : List Nat) :
    List Nat → TuckerModel α → List ((Nat × Nat × Nat) × Int) →
    Except PyErr (List ((Nat × Nat × Nat) × Int)) × TuckerModel α
  | [], model, res => (Except.ok res, model)
  | r1 :: rest, model, res =>
    let out := tucker_loop2 evaluator tucker_rank factors0 same_space r1 l3 l2 model res
    match out.1 with
    | Except.error e => (Except.error e, out.2)
    | Except.ok res' =>
        tucker_loop1 evaluator tucker_rank factors0 same_space l2 l3 rest out.2 res'

/-- Lexicographic comparison of rank triples, for Series.sort_index. -/
def tripleLe (a b : Nat × Nat × Nat) : Bool :=
  a.1 < b.1 || (a.1 == b.1 && (a.2.1 < b.2.1 || (a.2.1 == b.2.1 && a.2.2 ≤ b.2.2)))

/-- pd.Series(res_score).sort_index(): sort the score series by its
triple-valued index. -/
def sort_index (res : List ((Nat × Nat × Nat) × Int)) : List ((Nat × Nat × Nat) × Int) :=
  List.insertionSort (fun a b => tripleLe a.1 b.1 = true) res

/-- find_optimal_tucker_ranks from the source (config=None, identity
iterator, return_scores shape always materialized).  Setup raises
ValueError when a per-mode candidate sequence is empty (Python's max),
sets mlrank to the per-mode maxima, builds once if the model is not
ready, snapshots factors and the maximum triple, runs the three nested
candidate loops (per-trial restoration lives inside them), restores the
original verbosity on normal completion only — an exception from a trial
propagates without restoring it — then sorts the score series by index
and selects the best triple. -/
def find_optimal_tucker_ranks {α : Type} (build : TuckerModel α → Except PyErr (TuckerModel α))
    (evaluator : TuckerModel α → Except PyErr Int) (model : TuckerModel α)
    (tucker_ranks : List Nat × List Nat × List Nat) (same_space verbose : Bool) :
    Except PyErr ((Nat × Nat × Nat) × List ((Nat × Nat × Nat) × Int)) × TuckerModel α :=
  match tucker_ranks with
  | (l1, l2, l3) =>
    if l1.isEmpty ∨ l2.isEmpty ∨ l3.isEmpty then (Except.error PyErr.valueError, model)
    else
      let model_verbose := model.verbose
      let model := { model with mlrank := (maxList l1, maxList l2, maxList l3) }
      match (if model.is_ready then Except.ok model
             else build { model with verbose := verbose }) with
      | Except.error e => (Except.error e, { model with verbose := verbose })
      | Except.ok model =>
        let factors := model.factors
        let tucker_rank := model.mlrank
        let out := tucker_loop1 evaluator tucker_rank factors same_space l2 l3 l1 model []
        match out.1 with
        | Except.error e => (Except.error e, out.2)
        | Except.ok res_score =>
          let m := { out.2 with verbose := model_verbose }
          let scores := sort_index res_score
          match idxmax scores with
          | Except.error e => (Except.error e, m)
          | Except.ok best_mlrank => (Except.ok (best_mlrank, scores), m)

/-- One pass of the generator-based random draw protocol: for the i-th
while-iteration, draw one value per parameter dimension from that
dimension's candidate sequence and assemble the level_choice tuple in
fixed grid order.  The pluggable chooser maps (iteration, dimension) to an
arbitrary index; it is reduced modulo the dimension's cardinality, so any
chooser realizes some sequence of random draws. -/
def draw_level {V : Type} [Inhabited V] (chooser : Nat → Nat → Nat) (i : Nat)
    (param_values : List (List V)) : List V :=
  param_values.enum.map (fun p => p.2.getD (chooser i p.1 % p.2.length) default)

/-- The sampling while-loop of random_grid: while len(grid) < n −
len(skipped), draw a level_choice; an excluded tuple goes into the skip
set, any other tuple into the result grid (both with set semantics, so
repeated draws deduplicate).  The loop of the source is unbounded — it
stops only when the condition fails or the user interrupts — so it is run
here on explicit fuel: Option.none means the fuel was exhausted before
the loop condition failed (a run that never finished normally). -/
def random_grid_loop {V : Type} [DecidableEq V] [Inhabited V]
    (param_values : List (List V)) (skip_config : List V → Bool)
    (chooser : Nat → Nat → Nat) (n : Nat) :
    Nat → Nat → Finset (List V) → Finset (List V) →
    Option (Finset (List V) × Finset (List V))
  | 0, _, _, _ => Option.none
  | fuel + 1, i, grid, skipped =>
    if (grid.card : Int) < (n : Int) - (skipped.card : Int) then
      let level_choice := draw_level chooser i param_values
      if skip_config level_choice then
        random_grid_loop param_values skip_config chooser n fuel (i + 1) grid
          (insert level_choice skipped)
      else
        random_grid_loop param_values skip_config chooser n fuel (i + 1)
          (insert level_choice grid) skipped
    else Option.some (grid, skipped)

/-- The full Cartesian-product cardinality of a parameter grid (the max_n
of the source: the product of the per-parameter cardinalities). -/
def full_grid_size {V : Type} (params : List (String × List V)) : Nat :=
  (params.map (fun p => p.2.length)).foldl (fun a b => a * b) 1

/-- random_grid from the source.  Rejects a non-int budget with TypeError
and a negative one with ValueError before anything else; unpacking an
empty parameter mapping raises ValueError; otherwise it fixes the names
and order of the parameters, caps the budget (a zero budget means the full
Cartesian-product size), and runs the sampling loop from the optional
grid_cache.  The overall Option is the fuel bound of the embedded loop:
Option.none stands for a run that was still looping when the fuel ran
out, and never for a normally returned value. -/
def random_grid {V : Type} [DecidableEq V] [Inhabited V]
    (params : List (String × List V)) (n : PyObj)
    (grid_cache : Option (Finset (List V))) (skip_config : Option (List V → Bool))
    (chooser : Nat → Nat → Nat) (fuel : Nat) :
    Option (Except PyErr (Finset (List V) × List String)) :=
  match n with
  | PyObj.other _ => Option.some (Except.error PyErr.typeError)
  | PyObj.int n =>
    if n < 0 then Option.some (Except.error PyErr.valueError)
    else
      match params with
      | [] => Option.some (Except.error PyErr.valueError)
      | _ :: _ =>
        let param_names := params.map Prod.fst
        let param_values := params.map Prod.snd
        let grid := grid_cache.getD ∅
        let max_n := full_grid_size params
        let n' := min (if 0 < n then n.toNat else max_n) max_n
        let skip := skip_config.getD (fun _ => false)
        match random_grid_loop param_values skip chooser n' fuel 0 grid ∅ with
        | Option.none => Option.none
        | Option.some (grid, _) => Option.some (Except.ok (grid, param_names))

theorem set_config_cons (m : CModel) (p : String × PVal) (rest : List (String × PVal))
    (cn : Bool) :
    set_config m (p :: rest) cn =
      set_config (set_attr m p.1
        (if cn then (if val_eq p.2 p.2 then p.2 else PVal.none) else p.2)) rest cn := rfl

theorem set_config_lookup_not_mem (m : CModel) (cfg : List (String × PVal)) (cn : Bool)
    (name : String) (h : ¬ name ∈ cfg.map Prod.fst) :
    dict_lookup name (set_config m cfg cn).attrs = dict_lookup name m.attrs := by
  induction cfg generalizing m with
  | nil => rfl
  | cons p rest ih =>
    have h1 : ¬ name = p.1 := fun hh => h (by simp [hh])
    have h2 : ¬ name ∈ rest.map Prod.fst := fun hh => h (by simp [hh])
    rw [set_config_cons, ih _ h2]
    exact dict_lookup_insert_ne m.attrs name p.1 _ h1

/-- C7: set_config assigns each named value onto the model; with
convert_nan enabled, a value that compares unequal to itself (the
not-a-number sentinel) is replaced by the explicit absence marker None
before assignment, and with convert_nan disabled the raw value is
assigned unchanged. -/
theorem claim_C7 (model : CModel) (config : List (String × PVal)) (convert_nan : Bool)
    (name : String) (value : PVal)
    (hnd : (config.map Prod.fst).Nodup) (hmem : (name, value) ∈ config) :
    dict_lookup name (set_config model config convert_nan).attrs =
      Option.some (if convert_nan = true ∧ val_eq value value = false
                   then PVal.none else value) := by
  revert hnd hmem
  induction config generalizing model with
  | nil =>
    intro hnd hmem
    cases hmem
  | cons p rest ih =>
    intro hnd hmem
    rw [set_config_cons]
    rcases List.mem_cons.mp hmem with h | h
    · have hp1 : p.1 = name := by rw [← h]
      have hp2 : p.2 = value := by rw [← h]
      have hnotin : ¬ name ∈ rest.map Prod.fst := by
        simp only [List.map_cons, List.nodup_cons] at hnd
        rw [hp1] at hnd
        exact hnd.1
      rw [set_config_lookup_not_mem _ _ _ _ hnotin, hp1, hp2]
      have : (set_attr model name
          (if convert_nan then (if val_eq value value then value else PVal.none)
           else value)).attrs =
          dict_insert model.attrs name
            (if convert_nan then (if val_eq value value then value else PVal.none)
             else value) := rfl
      rw [this, dict_lookup_insert_self]
      cases convert_nan
      · simp
      · cases hv : val_eq value value <;> simp [hv]
    · have hnd' : (rest.map Prod.fst).Nodup := by
        simp only [List.map_cons, List.nodup_cons] at hnd
        exact hnd.2
      exact ih _ hnd' h

theorem claim_C7_witness :
    dict_lookup "a" (set_config
        { attrs := [], verbose := false, is_ready := true, method := "m" }
        [("a", PVal.nan)] true).attrs = Option.some PVal.none ∧
    dict_lookup "a" (set_config
        { attrs := [], verbose := false, is_ready := true, method := "m" }
        [("a", PVal.nan)] false).attrs = Option.some PVal.nan :=
  ⟨(claim_C7 _ [("a", PVal.nan)] true "a" PVal.nan (by decide) (by decide)).trans (by decide),
   (claim_C7 _ [("a", PVal.nan)] false "a" PVal.nan (by decide) (by decide)).trans (by decide)⟩

/-- C6: random_grid rejects every non-integer budget with a TypeError and
every negative integer budget with a ValueError, in both cases before the
sampling loop ever draws (the result is fixed for every parameter grid,
cache, exclusion predicate, chooser and fuel). -/
theorem claim_C6 {V : Type} [DecidableEq V] [Inhabited V] :
    (∀ (params : List (String × List V)) cache skipc chooser fuel s,
        random_grid params (PyObj.other s) cache skipc chooser fuel =
          Option.some (Except.error PyErr.typeError)) ∧
    (∀ (params : List (String × List V)) cache skipc chooser fuel (n : Int), n < 0 →
        random_grid params (PyObj.int n) cache skipc chooser fuel =
          Option.some (Except.error PyErr.valueError)) := by
  constructor
  · intro params cache skipc chooser fuel s
    rfl
  · intro params cache skipc chooser fuel n hn
    simp [random_grid, hn]

theorem claim_C6_witness :
    random_grid ([("a", [1])] : List (String × List Nat)) (PyObj.other "x")
        Option.none Option.none (fun _ _ => 0) 0 =
      Option.some (Except.error PyErr.typeError) ∧
    random_grid ([("a", [1])] : List (String × List Nat)) (PyObj.int (-1))
        Option.none Option.none (fun _ _ => 0) 0 =
      Option.some (Except.error PyErr.valueError) :=
  ⟨claim_C6.1 _ _ _ _ _ _, claim_C6.2 _ _ _ _ _ _ (by decide)⟩

/-- C10: on an empty candidate iterable, find_optimal_config does not
return a best configuration: the trial loop records nothing and selecting
the maximizer of the empty score series raises ValueError, so a non-empty
candidate sequence is an implicit precondition of the operation. -/
theorem claim_C10 (build : CModel → Except PyErr CModel)
    (evaluator : CModel → Except PyErr Int) (model : CModel)
    (param_names : List String) (init_config : List (List (String × PVal)))
    (reset_config : ResetConfig) (verbose force_build : Bool) :
    (find_optimal_config build evaluator model [] param_names init_config reset_config
        verbose force_build).1 = Except.error PyErr.valueError := rfl

theorem svd_loop_preserves {α : Type} (evaluator : SvdModel α → Except PyErr Int)
    (l : List Nat) (m : SvdModel α) (res : List (Nat × Int)) :
    (svd_loop evaluator l m res).2.factors = m.factors ∧
    (svd_loop evaluator l m res).2.method = m.method ∧
    (svd_loop evaluator l m res).2.is_ready = m.is_ready ∧
    (svd_loop evaluator l m res).2.verbose = m.verbose := by
  induction l generalizing m res with
  | nil => exact ⟨rfl, rfl, rfl, rfl⟩
  | cons r rest ih =>
    simp only [svd_loop]
    cases h : evaluator { m with rank := r } with
    | error e => simp
    | ok s => simpa using ih { m with rank := r, recommendations := Option.none } _

/-- The model state right after the setup phase of find_optimal_svd_rank
(rank grown to max(max(ranks), model.rank), then a build at the search
verbosity when the model was not ready), for an always-succeeding build
operation b. -/
def svd_setup_model {α : Type} (b : SvdModel α → SvdModel α) (model : SvdModel α)
    (ranks : List Nat) (verbose : Bool) : SvdModel α :=
  if model.is_ready then { model with rank := max (maxList ranks) model.rank }
  else b { model with rank := max (maxList ranks) model.rank, verbose := verbose }

theorem find_optimal_svd_rank_state_total {α : Type} (b : SvdModel α → SvdModel α)
    (evaluator : SvdModel α → Except PyErr Int) (model : SvdModel α)
    (r : Nat) (rs : List Nat) (pf v : Bool) :
    (find_optimal_svd_rank (fun m => Except.ok (b m)) evaluator model (r :: rs) pf v).2 =
      { (if pf then
           { (svd_loop evaluator (sort_desc (r :: rs))
               (svd_setup_model b model (r :: rs) v) []).2 with
             rank := max (maxList (r :: rs)) model.rank,
             factors := (svd_setup_model b model (r :: rs) v).factors }
         else
           (svd_loop evaluator (sort_desc (r :: rs))
             (svd_setup_model b model (r :: rs) v) []).2) with
        verbose := model.verbose } := by
  cases hr : model.is_ready with
  | true =>
    simp only [find_optimal_svd_rank, svd_setup_model, hr, ite_true]
    split
    · simp
    · split
      · simp
      · simp
  | false =>
    simp only [find_optimal_svd_rank, svd_setup_model, hr, Bool.false_eq_true, ite_false]
    split
    · simp
    · split
      · simp
      · simp

theorem find_optimal_svd_rank_state_ready {α : Type}
    (build : SvdModel α → Except PyErr (SvdModel α))
    (evaluator : SvdModel α → Except PyErr Int) (model : SvdModel α)
    (r : Nat) (rs : List Nat) (pf v : Bool) (hready : model.is_ready = true) :
    (find_optimal_svd_rank build evaluator model (r :: rs) pf v).2 =
      { (if pf then
           { (svd_loop evaluator (sort_desc (r :: rs))
               { model with rank := max (maxList (r :: rs)) model.rank } []).2 with
             rank := max (maxList (r :: rs)) model.rank,
             factors := model.factors }
         else
           (svd_loop evaluator (sort_desc (r :: rs))
             { model with rank := max (maxList (r :: rs)) model.rank } []).2) with
        verbose := model.verbose } := by
  simp only [find_optimal_svd_rank, hready, ite_true]
  split
  · simp
  · split
    · simp
    · simp

/-- A concrete ready model with rank 1, used to refute C1 as stated. -/
def c1_model : SvdModel Nat :=
  { rank := 1, factors := 7, verbose := false, is_ready := true,
    recommendations := Option.none, method := "m" }

/-- C1 is false as stated: searching candidate ranks [2] on a ready model
of pre-call rank 1 terminates normally with the model's rank equal to 2,
not to its pre-call value — the teardown restores the setup maximum
max(max(ranks), pre-call rank), not the pre-call rank. -/
theorem claim_C1_counterexample :
    c1_model.rank = 1 ∧
    (find_optimal_svd_rank (fun m => Except.ok m) (fun m => Except.ok (m.rank : Int))
        c1_model [2] true false).2.rank = 2 :=
  ⟨rfl, by decide⟩

/-- C1 (amended): with factor protection (the default), after
find_optimal_svd_rank returns or propagates a mid-loop evaluator
exception on an already-built model, the factors equal their pre-call
values, and the rank equals the setup value max(max(ranks), pre-call
rank) — which is the pre-call rank exactly when no candidate rank exceeds
it.  (The unamended restoration of the rank itself is refuted by
claim_C1_counterexample.) -/
theorem claim_C1 {α : Type} (build : SvdModel α → Except PyErr (SvdModel α))
    (evaluator : SvdModel α → Except PyErr Int) (model : SvdModel α)
    (ranks : List Nat) (verbose : Bool) (hready : model.is_ready = true) :
    (find_optimal_svd_rank build evaluator model ranks true verbose).2.factors =
      model.factors ∧
    (find_optimal_svd_rank build evaluator model ranks true verbose).2.rank =
      max (maxList ranks) model.rank ∧
    (maxList ranks ≤ model.rank →
      (find_optimal_svd_rank build evaluator model ranks true verbose).2.rank =
        model.rank) := by
  cases ranks with
  | nil =>
    refine ⟨rfl, ?_, fun h => rfl⟩
    show model.rank = max (maxList []) model.rank
    simp [maxList]
  | cons r rs =>
    rw [find_optimal_svd_rank_state_ready build evaluator model r rs true verbose hready]
    refine ⟨by simp, by simp, ?_⟩
    intro h
    simp [Nat.max_eq_right h]

/-- A concrete ready model with rank 5 for the C1 witness. -/
def c1w_model : SvdModel Nat :=
  { rank := 5, factors := 3, verbose := false, is_ready := true,
    recommendations := Option.none, method := "m" }

theorem claim_C1_witness :
    (find_optimal_svd_rank (fun m => Except.ok m) (fun m => Except.ok (m.rank : Int))
        c1w_model [2, 3] true false).2.factors = c1w_model.factors ∧
    (find_optimal_svd_rank (fun m => Except.ok m) (fun m => Except.ok (m.rank : Int))
        c1w_model [2, 3] true false).2.rank = max (maxList [2, 3]) c1w_model.rank ∧
    (maxList [2, 3] ≤ c1w_model.rank →
      (find_optimal_svd_rank (fun m => Except.ok m) (fun m => Except.ok (m.rank : Int))
          c1w_model [2, 3] true false).2.rank = c1w_model.rank) :=
  claim_C1 (fun m => Except.ok m) (fun m => Except.ok (m.rank : Int)) c1w_model [2, 3]
    false rfl

theorem foldl_min_mem (xs : List Nat) : ∀ x, xs.foldl min x ∈ x :: xs := by
  induction xs with
  | nil => intro x; simp
  | cons y ys ih =>
    intro x
    rw [List.foldl_cons]
    rcases List.mem_cons.mp (ih (min x y)) with h | h
    · rw [h, Nat.min_def]
      split
      · simp
      · simp
    · simp [h]

theorem foldl_min_le (xs : List Nat) : ∀ x y, y ∈ x :: xs → xs.foldl min x ≤ y := by
  induction xs with
  | nil =>
    intro x y hy
    have hxy : y = x := by simpa using hy
    simp [hxy]
  | cons z zs ih =>
    intro x y hy
    rw [List.foldl_cons]
    have hh : zs.foldl min (min x z) ≤ min x z := ih (min x z) (min x z) (by simp)
    rcases List.mem_cons.mp hy with h1 | h1
    · rw [h1]
      exact Nat.le_trans hh (Nat.min_le_left x z)
    · rcases List.mem_cons.mp h1 with h2 | h2
      · rw [h2]
        exact Nat.le_trans hh (Nat.min_le_right x z)
      · exact ih (min x z) y (List.mem_cons_of_mem _ h2)

theorem minList_mem (l : List Nat) (h : l ≠ []) : minList l ∈ l := by
  cases l with
  | nil => cases h rfl
  | cons x xs => simpa [minList] using foldl_min_mem xs x

theorem minList_le (l : List Nat) (y : Nat) (hy : y ∈ l) : minList l ≤ y := by
  cases l with
  | nil => cases hy
  | cons x xs => simpa [minList] using foldl_min_le xs x y hy

instance : IsTotal Nat (fun a b : Nat => b ≤ a) :=
  ⟨fun a b => Or.symm (Nat.le_total a b)⟩

instance : IsTrans Nat (fun a b : Nat => b ≤ a) :=
  ⟨fun _ _ _ h1 h2 => Nat.le_trans h2 h1⟩

theorem sort_desc_sorted (l : List Nat) : (sort_desc l).Pairwise (fun a b => b ≤ a) :=
  List.sorted_insertionSort _ l

theorem sort_desc_perm (l : List Nat) : (sort_desc l).Perm l :=
  List.perm_insertionSort _ l

theorem sort_desc_ne_nil (l : List Nat) (h : l ≠ []) : sort_desc l ≠ [] := by
  intro hh
  apply h
  have hlen := (sort_desc_perm l).length_eq
  rw [hh] at hlen
  exact List.length_eq_zero.mp hlen.symm

theorem pairwise_ge_getLast_le (l : List Nat) :
    ∀ (h : l ≠ []), l.Pairwise (fun a b => b ≤ a) → ∀ x ∈ l, l.getLast h ≤ x := by
  induction l with
  | nil => intro h; cases h rfl
  | cons a tl ih =>
    intro h hs x hx
    cases tl with
    | nil =>
      have hxa : x = a := by simpa using hx
      simp [List.getLast, hxa]
    | cons b tl2 =>
      rw [List.getLast_cons (List.cons_ne_nil b tl2)]
      have hs1 := List.pairwise_cons.mp hs
      have hlast_mem : (b :: tl2).getLast (List.cons_ne_nil b tl2) ∈ b :: tl2 :=
        List.getLast_mem _
      rcases List.mem_cons.mp hx with h1 | h1
      · subst h1
        exact hs1.1 _ hlast_mem
      · exact ih (List.cons_ne_nil b tl2) hs1.2 x h1

theorem getLast_sort_desc (l : List Nat) (h : l ≠ []) :
    (sort_desc l).getLast (sort_desc_ne_nil l h) = minList l := by
  have hmem : (sort_desc l).getLast (sort_desc_ne_nil l h) ∈ sort_desc l :=
    List.getLast_mem _
  have hmem' : (sort_desc l).getLast (sort_desc_ne_nil l h) ∈ l :=
    (sort_desc_perm l).mem_iff.mp hmem
  have h1 : minList l ≤ (sort_desc l).getLast (sort_desc_ne_nil l h) :=
    minList_le l _ hmem'
  have h2 : (sort_desc l).getLast (sort_desc_ne_nil l h) ≤ minList l :=
    pairwise_ge_getLast_le (sort_desc l) (sort_desc_ne_nil l h) (sort_desc_sorted l)
      (minList l) ((sort_desc_perm l).mem_iff.mpr (minList_mem l h))
  exact Nat.le_antisymm h2 h1

theorem svd_loop_cons {α : Type} (evaluator : SvdModel α → Except PyErr Int)
    (r : Nat) (rest : List Nat) (m : SvdModel α) (res : List (Nat × Int)) :
    svd_loop evaluator (r :: rest) m res =
      match evaluator { m with rank := r } with
      | Except.error e => (Except.error e, { m with rank := r })
      | Except.ok s =>
          svd_loop evaluator rest { m with rank := r, recommendations := Option.none }
            (dict_insert res r s) := rfl

theorem svd_loop_final_rank {α : Type} (evaluator : SvdModel α → Except PyErr Int) :
    ∀ (l : List Nat) (hl : l ≠ []) (m : SvdModel α) (res out : List (Nat × Int)),
      (svd_loop evaluator l m res).1 = Except.ok out →
      (svd_loop evaluator l m res).2.rank = l.getLast hl := by
  intro l
  induction l with
  | nil => intro hl; cases hl rfl
  | cons r rest ih =>
    intro hl m res out hok
    rw [svd_loop_cons] at hok ⊢
    cases he : evaluator { m with rank := r } with
    | error e =>
      simp only [he] at hok
      simp at hok
    | ok s =>
      simp only [he] at hok ⊢
      cases rest with
      | nil => simp [svd_loop, List.getLast]
      | cons r2 rest2 =>
        rw [List.getLast_cons (List.cons_ne_nil r2 rest2)]
        exact ih (List.cons_ne_nil r2 rest2) _ _ out hok

theorem find_optimal_svd_rank_result_total {α : Type} (b : SvdModel α → SvdModel α)
    (evaluator : SvdModel α → Except PyErr Int) (model : SvdModel α)
    (r : Nat) (rs : List Nat) (pf v : Bool) :
    (find_optimal_svd_rank (fun m => Except.ok (b m)) evaluator model (r :: rs) pf v).1 =
      (match (svd_loop evaluator (sort_desc (r :: rs))
          (svd_setup_model b model (r :: rs) v) []).1 with
       | Except.error e => Except.error e
       | Except.ok res =>
         match idxmax res with
         | Except.error e => Except.error e
         | Except.ok best => Except.ok (best, series_loc (r :: rs) res)) := by
  cases hr : model.is_ready with
  | true =>
    simp only [find_optimal_svd_rank, svd_setup_model, hr, ite_true]
    split
    · simp
    · split
      · simp
      · simp
  | false =>
    simp only [find_optimal_svd_rank, svd_setup_model, hr, Bool.false_eq_true, ite_false]
    split
    · simp
    · split
      · simp
      · simp

/-- C9: with protect_factors disabled, find_optimal_svd_rank does not
restore rank or factors on exit: after a normal completion the model's
rank equals the last candidate iterated (the smallest candidate, since
the loop runs in descending order), and the factors stay whatever the
trials left them — the factors of the post-setup (built) model, with no
snapshot restored. -/
theorem claim_C9 {α : Type} (b : SvdModel α → SvdModel α)
    (evaluator : SvdModel α → Except PyErr Int) (model : SvdModel α)
    (ranks : List Nat) (v : Bool) (hne : ranks ≠ [])
    (out : Nat × List (Nat × Int))
    (hok : (find_optimal_svd_rank (fun m => Except.ok (b m)) evaluator model
        ranks false v).1 = Except.ok out) :
    (find_optimal_svd_rank (fun m => Except.ok (b m)) evaluator model
        ranks false v).2.rank = minList ranks ∧
    (find_optimal_svd_rank (fun m => Except.ok (b m)) evaluator model
        ranks false v).2.factors = (svd_setup_model b model ranks v).factors := by
  cases ranks with
  | nil => cases hne rfl
  | cons r rs =>
    have hne' : (r :: rs) ≠ [] := List.cons_ne_nil r rs
    rw [find_optimal_svd_rank_result_total] at hok
    have hp := svd_loop_preserves evaluator (sort_desc (r :: rs))
      (svd_setup_model b model (r :: rs) v) []
    cases hloop : (svd_loop evaluator (sort_desc (r :: rs))
        (svd_setup_model b model (r :: rs) v) []).1 with
    | error e =>
      rw [hloop] at hok
      simp at hok
    | ok res =>
      rw [find_optimal_svd_rank_state_total]
      constructor
      · have hfr := svd_loop_final_rank evaluator (sort_desc (r :: rs))
          (sort_desc_ne_nil (r :: rs) hne') (svd_setup_model b model (r :: rs) v) [] res hloop
        rw [getLast_sort_desc (r :: rs) hne'] at hfr
        simpa using hfr
      · simpa using hp.1

/-- A concrete ready model with rank 5 for the C9 witness. -/
def c9_model : SvdModel Nat :=
  { rank := 5, factors := 11, verbose := false, is_ready := true,
    recommendations := Option.none, method := "m" }

theorem claim_C9_witness :
    (find_optimal_svd_rank (fun m => Except.ok ((fun m => m) m))
        (fun m => Except.ok (m.rank : Int)) c9_model [2, 3] false false).2.rank =
      minList [2, 3] ∧
    (find_optimal_svd_rank (fun m => Except.ok ((fun m => m) m))
        (fun m => Except.ok (m.rank : Int)) c9_model [2, 3] false false).2.factors =
      (svd_setup_model (fun m => m) c9_model [2, 3] false).factors :=
  claim_C9 (fun m => m) (fun m => Except.ok (m.rank : Int)) c9_model [2, 3] false
    (by decide) (3, [(2, 2), (3, 3)]) (by decide)

theorem find_optimal_tucker_ranks_error_or_verbose {α : Type}
    (build : TuckerModel α → Except PyErr (TuckerModel α))
    (evaluator : TuckerModel α → Except PyErr Int) (model : TuckerModel α)
    (tucker_ranks : List Nat × List Nat × List Nat) (ss v : Bool) :
    (∃ e, (find_optimal_tucker_ranks build evaluator model tucker_ranks ss v).1 =
      Except.error e) ∨
    (find_optimal_tucker_ranks build evaluator model tucker_ranks ss v).2.verbose =
      model.verbose := by
  obtain ⟨l1, l2, l3⟩ := tucker_ranks
  simp only [find_optimal_tucker_ranks]
  repeat' split
  all_goals first
    | exact Or.inl ⟨_, rfl⟩
    | exact Or.inr (by simp)

theorem find_optimal_config_error_or_verbose (build : CModel → Except PyErr CModel)
    (evaluator : CModel → Except PyErr Int) (model : CModel)
    (param_grid : List (List PVal)) (param_names : List String)
    (init_config : List (List (String × PVal))) (reset_config : ResetConfig)
    (verbose force_build : Bool) :
    (∃ e, (find_optimal_config build evaluator model param_grid param_names init_config
        reset_config verbose force_build).1 = Except.error e) ∨
    (find_optimal_config build evaluator model param_grid param_names init_config
        reset_config verbose force_build).2.verbose = model.verbose := by
  simp only [find_optimal_config]
  repeat' split
  all_goals first
    | exact Or.inl ⟨_, rfl⟩
    | exact Or.inr (by simp)

theorem set_config_verbose (m : CModel) (cfg : List (String × PVal)) (cn : Bool) :
    (set_config m cfg cn).verbose = m.verbose := by
  induction cfg generalizing m with
  | nil => rfl
  | cons p rest ih =>
    rw [set_config_cons]
    exact (ih _).trans rfl

theorem config_loop_verbose (build : CModel → Except PyErr CModel)
    (ev : CModel → Except PyErr Int) (names : List String) (reset : ResetConfig)
    (fb : Bool)
    (hbv : ∀ m m', build m = Except.ok m' → m'.verbose = m.verbose)
    (hrv : ∀ m m', apply_reset reset m = Except.ok m' → m'.verbose = m.verbose) :
    ∀ (grid : List (List PVal)) (m : CModel) (acc : List (List PVal × Int)),
      (config_loop build ev names reset fb grid m acc).2.verbose = m.verbose := by
  intro grid
  induction grid with
  | nil => intro m acc; rfl
  | cons p rest ih =>
    intro m acc
    have hv1 : (set_config m (params_to_dict names p) true).verbose = m.verbose :=
      set_config_verbose _ _ _
    simp only [config_loop]
    by_cases hcond :
        (!(set_config m (params_to_dict names p) true).is_ready || fb) = true
    · rw [if_pos hcond]
      cases hbuild : build (set_config m (params_to_dict names p) true) with
      | error e =>
        simp only [hbuild]
        cases hreset : apply_reset reset (set_config m (params_to_dict names p) true) with
        | error e2 =>
          simp only [hreset]
          exact hv1
        | ok m2 =>
          simp only [hreset]
          exact (hrv _ _ hreset).trans hv1
      | ok m2 =>
        have hv2 : m2.verbose = m.verbose := (hbv _ _ hbuild).trans hv1
        simp only [hbuild]
        cases hev : ev m2 with
        | error e =>
          simp only [hev]
          cases hreset : apply_reset reset m2 with
          | error e2 =>
            simp only [hreset]
            exact hv2
          | ok m3 =>
            simp only [hreset]
            exact (hrv _ _ hreset).trans hv2
        | ok s =>
          simp only [hev]
          cases hreset : apply_reset reset m2 with
          | error e2 =>
            simp only [hreset]
            exact hv2
          | ok m3 =>
            simp only [hreset]
            exact (ih _ _).trans ((hrv _ _ hreset).trans hv2)
    · rw [if_neg hcond]
      cases hev : ev (set_config m (params_to_dict names p) true) with
      | error e =>
        simp only [hev]
        cases hreset : apply_reset reset (set_config m (params_to_dict names p) true) with
        | error e2 =>
          simp only [hreset]
          exact hv1
        | ok m3 =>
          simp only [hreset]
          exact (hrv _ _ hreset).trans hv1
      | ok s =>
        simp only [hev]
        cases hreset : apply_reset reset (set_config m (params_to_dict names p) true) with
        | error e2 =>
          simp only [hreset]
          exact hv1
        | ok m3 =>
          simp only [hreset]
          exact (ih _ _).trans ((hrv _ _ hreset).trans hv1)

theorem find_optimal_config_error_state (build : CModel → Except PyErr CModel)
    (ev : CModel → Except PyErr Int) (model : CModel) (grid : List (List PVal))
    (names : List String) (init : List (List (String × PVal))) (reset : ResetConfig)
    (v fb : Bool) (e : PyErr)
    (h : (config_loop build ev names reset fb grid
        { init.foldl (fun m c => set_config m c true) model with verbose := v } []).1 =
      Except.error e) :
    (find_optimal_config build ev model grid names init reset v fb).1 = Except.error e ∧
    (find_optimal_config build ev model grid names init reset v fb).2 =
      (config_loop build ev names reset fb grid
        { init.foldl (fun m c => set_config m c true) model with verbose := v } []).2 := by
  simp only [find_optimal_config, h]
  exact ⟨trivial, trivial⟩

/-- A concrete unbuilt Tucker model with verbosity enabled, used to refute
C2 as stated. -/
def c2_tucker_model : TuckerModel Nat :=
  { mlrank := (1, 1, 1), factors := 0, verbose := true, is_ready := false,
    recommendations := Option.none, method := "m" }

/-- C2 is false as stated: on an unbuilt Tucker model with verbosity on,
searched at verbose=false with an evaluator that raises on the first
trial, find_optimal_tucker_ranks propagates the exception with the
model's verbosity flag still false — the pre-call value true is restored
on normal completion only. -/
theorem claim_C2_counterexample :
    c2_tucker_model.verbose = true ∧
    (find_optimal_tucker_ranks (fun m => Except.ok { m with is_ready := true })
        (fun _ => Except.error (PyErr.external 0)) c2_tucker_model ([1], [1], [1])
        false false).1 = Except.error (PyErr.external 0) ∧
    (find_optimal_tucker_ranks (fun m => Except.ok { m with is_ready := true })
        (fun _ => Except.error (PyErr.external 0)) c2_tucker_model ([1], [1], [1])
        false false).2.verbose = false :=
  ⟨rfl, by decide, by decide⟩

/-- C2 (amended): find_optimal_svd_rank restores the model's verbosity
flag on every exit path — normal completion or a mid-loop evaluator
exception — via its finally clause; find_optimal_tucker_ranks and
find_optimal_config restore the verbosity flag on normal completion only
(second and third conjuncts), and when a find_optimal_config trial raises
mid-loop — from build or evaluate — the exception propagates with the
verbosity flag still equal to the search value, for every build operation
and reset_config that do not themselves alter the flag (fourth conjunct;
the tucker counterpart is claim_C2_counterexample). -/
theorem claim_C2 :
    (∀ (α : Type) (b : SvdModel α → SvdModel α)
        (evaluator : SvdModel α → Except PyErr Int) (model : SvdModel α)
        (ranks : List Nat) (pf v : Bool),
        (find_optimal_svd_rank (fun m => Except.ok (b m)) evaluator model ranks
            pf v).2.verbose = model.verbose) ∧
    (∀ (α : Type) (build : TuckerModel α → Except PyErr (TuckerModel α))
        (evaluator : TuckerModel α → Except PyErr Int) (model : TuckerModel α)
        (tr : List Nat × List Nat × List Nat) (ss v : Bool)
        (out : (Nat × Nat × Nat) × List ((Nat × Nat × Nat) × Int)),
        (find_optimal_tucker_ranks build evaluator model tr ss v).1 = Except.ok out →
        (find_optimal_tucker_ranks build evaluator model tr ss v).2.verbose =
          model.verbose) ∧
    (∀ (build : CModel → Except PyErr CModel) (evaluator : CModel → Except PyErr Int)
        (model : CModel) (grid : List (List PVal)) (names : List String)
        (init : List (List (String × PVal))) (reset : ResetConfig) (v fb : Bool)
        (out : List (String × PVal) × List (List PVal × Int)),
        (find_optimal_config build evaluator model grid names init reset v fb).1 =
          Except.ok out →
        (find_optimal_config build evaluator model grid names init reset v fb).2.verbose =
          model.verbose) ∧
    (∀ (build : CModel → Except PyErr CModel) (ev : CModel → Except PyErr Int)
        (model : CModel) (grid : List (List PVal)) (names : List String)
        (init : List (List (String × PVal))) (reset : ResetConfig) (v fb : Bool)
        (e : PyErr),
        (∀ m m', build m = Except.ok m' → m'.verbose = m.verbose) →
        (∀ m m', apply_reset reset m = Except.ok m' → m'.verbose = m.verbose) →
        (config_loop build ev names reset fb grid
            { init.foldl (fun m c => set_config m c true) model with verbose := v } []).1 =
          Except.error e →
        (find_optimal_config build ev model grid names init reset v fb).1 =
            Except.error e ∧
          (find_optimal_config build ev model grid names init reset v fb).2.verbose = v) := by
  refine ⟨?_, ?_, ?_, ?_⟩
  · intro α b evaluator model ranks pf v
    cases ranks with
    | nil => rfl
    | cons r rs =>
      rw [find_optimal_svd_rank_state_total]
  · intro α build evaluator model tr ss v out hok
    rcases find_optimal_tucker_ranks_error_or_verbose build evaluator model tr ss v with
      ⟨e, he⟩ | hv
    · exact absurd (he.symm.trans hok) (by simp)
    · exact hv
  · intro build evaluator model grid names init reset v fb out hok
    rcases find_optimal_config_error_or_verbose build evaluator model grid names init
        reset v fb with ⟨e, he⟩ | hv
    · exact absurd (he.symm.trans hok) (by simp)
    · exact hv
  · intro build ev model grid names init reset v fb e hbv hrv hloop
    obtain ⟨h1, h2⟩ := find_optimal_config_error_state build ev model grid names init
      reset v fb e hloop
    refine ⟨h1, ?_⟩
    rw [h2]
    exact config_loop_verbose build ev names reset fb hbv hrv grid _ []

/-- A concrete ready SVD model for the C2 witness. -/
def c2w_svd_model : SvdModel Nat :=
  { rank := 2, factors := 5, verbose := true, is_ready := true,
    recommendations := Option.none, method := "m" }

/-- A concrete ready config-search model for the C2 witness. -/
def c2w_cmodel : CModel :=
  { attrs := [], verbose := true, is_ready := true, method := "m" }

theorem claim_C2_witness :
    (find_optimal_svd_rank (fun m => Except.ok ((fun m => m) m))
        (fun _ => Except.error (PyErr.external 1)) c2w_svd_model [1] true
        false).2.verbose = c2w_svd_model.verbose ∧
    (find_optimal_config (fun m => Except.ok m) (fun _ => Except.ok 0) c2w_cmodel
        [[PVal.int 1]] ["a"] [] ResetConfig.none' false true).2.verbose =
      c2w_cmodel.verbose ∧
    ((find_optimal_config (fun m => Except.ok m)
        (fun _ => Except.error (PyErr.external 0)) c2w_cmodel [[PVal.int 1]] ["a"] []
        ResetConfig.none' false true).1 = Except.error (PyErr.external 0) ∧
      (find_optimal_config (fun m => Except.ok m)
        (fun _ => Except.error (PyErr.external 0)) c2w_cmodel [[PVal.int 1]] ["a"] []
        ResetConfig.none' false true).2.verbose = false) :=
  ⟨claim_C2.1 Nat (fun m => m) (fun _ => Except.error (PyErr.external 1)) c2w_svd_model
      [1] true false,
   claim_C2.2.2.1 (fun m => Except.ok m) (fun _ => Except.ok 0) c2w_cmodel
      [[PVal.int 1]] ["a"] [] ResetConfig.none' false true
      ([("a", PVal.int 1)], [([PVal.int 1], 0)]) (by decide),
   claim_C2.2.2.2 (fun m => Except.ok m) (fun _ => Except.error (PyErr.external 0))
      c2w_cmodel [[PVal.int 1]] ["a"] [] ResetConfig.none' false true
      (PyErr.external 0)
      (fun m m' h => by injection h with h2; rw [← h2])
      (fun m m' h => by injection h with h2; rw [← h2])
      (by decide)⟩

theorem svd_loop_congr {α : Type} (evaluator : SvdModel α → Except PyErr Int)
    (he : ∀ m1 m2 : SvdModel α, m1.rank = m2.rank → m1.factors = m2.factors →
      m1.method = m2.method → evaluator m1 = evaluator m2) :
    ∀ (l : List Nat) (m m' : SvdModel α) (res : List (Nat × Int)),
      m.factors = m'.factors → m.method = m'.method →
      (svd_loop evaluator l m res).1 = (svd_loop evaluator l m' res).1 := by
  intro l
  induction l with
  | nil => intro m m' res hf hm; rfl
  | cons r rest ih =>
    intro m m' res hf hm
    rw [svd_loop_cons, svd_loop_cons]
    have heq : evaluator { m with rank := r } = evaluator { m' with rank := r } :=
      he _ _ rfl (by simpa using hf) (by simpa using hm)
    rw [heq]
    cases hev : evaluator { m' with rank := r } with
    | error e => simp
    | ok s =>
      simp only
      exact ih _ _ _ (by simpa using hf) (by simpa using hm)

/-- C8: calling find_optimal_svd_rank twice in succession on the same
model with the same arguments yields the same result — best rank and
score series alike — for every deterministic evaluator whose score is a
function of the model's scoring-relevant state (rank, factors, method
label; per the interface contract the verbosity flag only controls
logging and the recommendations slot is a cache used purely for
invalidation) and every build operation that establishes the readiness
flag. -/
theorem claim_C8 {α : Type} (b : SvdModel α → SvdModel α)
    (evaluator : SvdModel α → Except PyErr Int) (model : SvdModel α)
    (ranks : List Nat) (pf v : Bool)
    (hb : ∀ m, (b m).is_ready = true)
    (he : ∀ m1 m2 : SvdModel α, m1.rank = m2.rank → m1.factors = m2.factors →
      m1.method = m2.method → evaluator m1 = evaluator m2) :
    (find_optimal_svd_rank (fun m => Except.ok (b m)) evaluator
        ((find_optimal_svd_rank (fun m => Except.ok (b m)) evaluator model ranks pf v).2)
        ranks pf v).1 =
      (find_optimal_svd_rank (fun m => Except.ok (b m)) evaluator model ranks pf v).1 := by
  cases ranks with
  | nil => rfl
  | cons r rs =>
    have hsetup_ready : (svd_setup_model b model (r :: rs) v).is_ready = true := by
      unfold svd_setup_model
      cases hr : model.is_ready
      · simp [hr, hb]
      · simp [hr]
    have hp := svd_loop_preserves evaluator (sort_desc (r :: rs))
      (svd_setup_model b model (r :: rs) v) []
    have hm1f : (find_optimal_svd_rank (fun m => Except.ok (b m)) evaluator model
        (r :: rs) pf v).2.factors = (svd_setup_model b model (r :: rs) v).factors := by
      rw [find_optimal_svd_rank_state_total]
      cases pf
      · simpa using hp.1
      · simp
    have hm1m : (find_optimal_svd_rank (fun m => Except.ok (b m)) evaluator model
        (r :: rs) pf v).2.method = (svd_setup_model b model (r :: rs) v).method := by
      rw [find_optimal_svd_rank_state_total]
      cases pf
      · simpa using hp.2.1
      · simpa using hp.2.1
    have hm1r : (find_optimal_svd_rank (fun m => Except.ok (b m)) evaluator model
        (r :: rs) pf v).2.is_ready = true := by
      rw [find_optimal_svd_rank_state_total]
      cases pf
      · simpa [hsetup_ready] using hp.2.2.1
      · simpa [hsetup_ready] using hp.2.2.1
    have hsetup2 : svd_setup_model b
        ((find_optimal_svd_rank (fun m => Except.ok (b m)) evaluator model
          (r :: rs) pf v).2) (r :: rs) v =
        { (find_optimal_svd_rank (fun m => Except.ok (b m)) evaluator model
            (r :: rs) pf v).2 with
          rank := max (maxList (r :: rs))
            (find_optimal_svd_rank (fun m => Except.ok (b m)) evaluator model
              (r :: rs) pf v).2.rank } := by
      unfold svd_setup_model
      simp [hm1r]
    have hloop_eq : (svd_loop evaluator (sort_desc (r :: rs))
        (svd_setup_model b
          ((find_optimal_svd_rank (fun m => Except.ok (b m)) evaluator model
            (r :: rs) pf v).2) (r :: rs) v) []).1 =
        (svd_loop evaluator (sort_desc (r :: rs))
          (svd_setup_model b model (r :: rs) v) []).1 := by
      apply svd_loop_congr evaluator he
      · rw [hsetup2]
        simpa using hm1f
      · rw [hsetup2]
        simpa using hm1m
    rw [find_optimal_svd_rank_result_total, find_optimal_svd_rank_result_total, hloop_eq]

/-- A concrete unbuilt model for the C8 witness. -/
def c8_model : SvdModel Nat :=
  { rank := 1, factors := 0, verbose := true, is_ready := false,
    recommendations := Option.none, method := "m" }

theorem claim_C8_witness :
    (find_optimal_svd_rank (fun m => Except.ok { m with is_ready := true, factors := 9 })
        (fun m => Except.ok (m.rank : Int))
        ((find_optimal_svd_rank
            (fun m => Except.ok { m with is_ready := true, factors := 9 })
            (fun m => Except.ok (m.rank : Int)) c8_model [2, 4] true false).2)
        [2, 4] true false).1 =
      (find_optimal_svd_rank (fun m => Except.ok { m with is_ready := true, factors := 9 })
        (fun m => Except.ok (m.rank : Int)) c8_model [2, 4] true false).1 :=
  claim_C8 (fun m => { m with is_ready := true, factors := 9 })
    (fun m => Except.ok (m.rank : Int)) c8_model [2, 4] true false
    (fun _ => rfl) (fun m1 m2 h1 _ _ => by simp [h1])

/-- Well-formedness of a key of the Tucker score series: the pairwise
product dominance rule, plus equality of the first two modes when
same_space is set. -/
def tucker_key_ok (ss : Bool) (t : Nat × Nat × Nat) : Prop :=
  t.2.2 ≤ t.1 * t.2.1 ∧ t.2.1 ≤ t.1 * t.2.2 ∧ t.1 ≤ t.2.1 * t.2.2 ∧
    (ss = true → t.1 = t.2.1)

theorem tucker_loop3_keys {α : Type} (evaluator : TuckerModel α → Except PyErr Int)
    (tucker_rank : Nat × Nat × Nat) (factors0 : α) (ss : Bool) (r1 r2 : Nat)
    (hss : ss = true → r1 = r2) :
    ∀ (l3 : List Nat) (m : TuckerModel α) (res out : List ((Nat × Nat × Nat) × Int)),
      (∀ p ∈ res, tucker_key_ok ss p.1) →
      (tucker_loop3 evaluator tucker_rank factors0 r1 r2 l3 m res).1 = Except.ok out →
      ∀ p ∈ out, tucker_key_ok ss p.1 := by
  intro l3
  induction l3 with
  | nil =>
    intro m res out hres hok
    simp only [tucker_loop3] at hok
    cases hok
    exact hres
  | cons r3 rest ih =>
    intro m res out hres hok
    simp only [tucker_loop3] at hok
    by_cases hp : r1 * r2 < r3 ∨ r1 * r3 < r2 ∨ r2 * r3 < r1
    · rw [if_pos hp] at hok
      exact ih _ _ _ hres hok
    · rw [if_neg hp] at hok
      cases he : evaluator { m with mlrank := (r1, r2, r3) } with
      | error e =>
        simp only [he] at hok
        simp at hok
      | ok s =>
        simp only [he] at hok
        refine ih _ _ _ ?_ hok
        intro p hpmem
        obtain ⟨pk, pv⟩ := p
        rcases mem_dict_insert res pk (r1, r2, r3) pv s hpmem with ⟨hk, _⟩ | hmem
        · push_neg at hp
          rw [hk]
          exact ⟨hp.1, hp.2.1, hp.2.2, hss⟩
        · exact hres _ hmem
  

theorem tucker_loop2_keys {α : Type} (evaluator : TuckerModel α → Except PyErr Int)
    (tucker_rank : Nat × Nat × Nat) (factors0 : α) (ss : Bool) (r1 : Nat) (l3 : List Nat) :
    ∀ (l2 : List Nat) (m : TuckerModel α) (res out : List ((Nat × Nat × Nat) × Int)),
      (∀ p ∈ res, tucker_key_ok ss p.1) →
      (tucker_loop2 evaluator tucker_rank factors0 ss r1 l3 l2 m res).1 = Except.ok out →
      ∀ p ∈ out, tucker_key_ok ss p.1 := by
  intro l2
  induction l2 with
  | nil =>
    intro m res out hres hok
    simp only [tucker_loop2] at hok
    cases hok
    exact hres
  | cons r2 rest ih =>
    intro m res out hres hok
    simp only [tucker_loop2] at hok
    by_cases hskip : ss = true ∧ r2 ≠ r1
    · rw [if_pos hskip] at hok
      exact ih _ _ _ hres hok
    · rw [if_neg hskip] at hok
      cases h3 : (tucker_loop3 evaluator tucker_rank factors0 r1 r2 l3 m res).1 with
      | error e =>
        simp only [h3] at hok
        simp at hok
      | ok res' =>
        simp only [h3] at hok
        have hss : ss = true → r1 = r2 := by
          intro hs
          by_contra hne
          exact hskip ⟨hs, fun hh => hne hh.symm⟩
        exact ih _ _ _
          (tucker_loop3_keys evaluator tucker_rank factors0 ss r1 r2 hss l3 m res res'
            hres h3) hok

theorem tucker_loop1_keys {α : Type} (evaluator : TuckerModel α → Except PyErr Int)
    (tucker_rank : Nat × Nat × Nat) (factors0 : α) (ss : Bool) (l2 l3 : List Nat) :
    ∀ (l1 : List Nat) (m : TuckerModel α) (res out : List ((Nat × Nat × Nat) × Int)),
      (∀ p ∈ res, tucker_key_ok ss p.1) →
      (tucker_loop1 evaluator tucker_rank factors0 ss l2 l3 l1 m res).1 = Except.ok out →
      ∀ p ∈ out, tucker_key_ok ss p.1 := by
  intro l1
  induction l1 with
  | nil =>
    intro m res out hres hok
    simp only [tucker_loop1] at hok
    cases hok
    exact hres
  | cons r1 rest ih =>
    intro m res out hres hok
    simp only [tucker_loop1] at hok
    cases h2 : (tucker_loop2 evaluator tucker_rank factors0 ss r1 l3 l2 m res).1 with
    | error e =>
      simp only [h2] at hok
      simp at hok
    | ok res' =>
      simp only [h2] at hok
      exact ih _ _ _
        (tucker_loop2_keys evaluator tucker_rank factors0 ss r1 l3 l2 m res res' hres h2)
        hok

theorem sort_index_mem (res : List ((Nat × Nat × Nat) × Int))
    (p : (Nat × Nat × Nat) × Int) : p ∈ sort_index res ↔ p ∈ res :=
  (List.perm_insertionSort _ res).mem_iff

/-- C4: every key (r1, r2, r3) of the score series returned by
find_optimal_tucker_ranks satisfies the pairwise product dominance rule
r1*r2 >= r3, r1*r3 >= r2, r2*r3 >= r1, and under same_space additionally
r1 = r2. -/
theorem claim_C4 {α : Type} (build : TuckerModel α → Except PyErr (TuckerModel α))
    (evaluator : TuckerModel α → Except PyErr Int) (model : TuckerModel α)
    (l1 l2 l3 : List Nat) (ss v : Bool) (best : Nat × Nat × Nat)
    (scores : List ((Nat × Nat × Nat) × Int))
    (hok : (find_optimal_tucker_ranks build evaluator model (l1, l2, l3) ss v).1 =
      Except.ok (best, scores)) :
    ∀ r1 r2 r3 s, ((r1, r2, r3), s) ∈ scores →
      r3 ≤ r1 * r2 ∧ r2 ≤ r1 * r3 ∧ r1 ≤ r2 * r3 ∧ (ss = true → r1 = r2) := by
  intro r1 r2 r3 s hmem
  simp only [find_optimal_tucker_ranks] at hok
  split at hok
  · exact absurd hok (by simp)
  · split at hok
    · exact absurd hok (by simp)
    · split at hok
      · exact absurd hok (by simp)
      · split at hok
        · exact absurd hok (by simp)
        · rename_i m1 hbuild x1 res_score hloop x2 best2 hidx
          have hscores : scores = sort_index res_score := by
            have := hok
            simp at this
            exact this.2.symm
          have hkeys := tucker_loop1_keys evaluator m1.mlrank m1.factors ss l2 l3 l1 m1
            [] res_score (by intro p hp; cases hp) hloop
          have hmem' : ((r1, r2, r3), s) ∈ res_score := by
            rw [hscores] at hmem
            exact (sort_index_mem res_score _).mp hmem
          have hk := hkeys _ hmem'
          simpa [tucker_key_ok] using hk

/-- A concrete ready Tucker model for the C4 witness. -/
def c4_model : TuckerModel Nat :=
  { mlrank := (1, 1, 1), factors := 7, verbose := true, is_ready := true,
    recommendations := Option.none, method := "m" }

theorem claim_C4_witness :
    1 ≤ 2 * 2 ∧ 2 ≤ 2 * 1 ∧ 2 ≤ 2 * 1 ∧ (false = true → 2 = 2) :=
  claim_C4 (fun m => Except.ok m) (fun _ => Except.ok 0) c4_model [1, 2] [1, 2] [1, 2]
    false false (1, 1, 1)
    [((1, 1, 1), 0), ((1, 2, 2), 0), ((2, 1, 2), 0), ((2, 2, 1), 0), ((2, 2, 2), 0)]
    (by decide) 2 2 1 0 (by decide)

/-- A counter-bumping reset callable, used to observe how often
find_optimal_config invokes reset_config: it increments the integer
attribute cnt on the model. -/
def incr_reset (cnt : String) (m : CModel) : CModel :=
  set_attr m cnt
    (match dict_lookup cnt m.attrs with
     | Option.some (PVal.int k) => PVal.int (k + 1)
     | _ => PVal.int 1)

theorem incr_reset_lookup (cnt : String) (m : CModel) (k : Int)
    (h : dict_lookup cnt m.attrs = Option.some (PVal.int k)) :
    dict_lookup cnt (incr_reset cnt m).attrs = Option.some (PVal.int (k + 1)) := by
  simp only [incr_reset, set_attr, h]
  exact dict_lookup_insert_self _ _ _

theorem params_to_dict_keys_not_mem (names : List String) (params : List PVal) (c : String)
    (h : ¬ c ∈ names) : ¬ c ∈ (params_to_dict names params).map Prod.fst := by
  intro hc
  rcases List.mem_map.mp hc with ⟨p, hp, hpc⟩
  obtain ⟨pn, pv⟩ := p
  exact h (hpc ▸ (List.of_mem_zip hp).1)

/-- Per-trial reset accounting for the trial loop of
find_optimal_config with a counter-bumping reset callable, for an
arbitrary fallible build and an arbitrary fallible evaluator: either
every trial completed and the counter rose by one per grid entry, or
some trial was the first to raise — from build or from evaluate — after
j successful trials, and the counter rose by exactly j + 1, the last
bump applied by the finally clause of the raising trial before the
exception propagates. -/
theorem config_loop_resets_count (build : CModel → Except PyErr CModel)
    (ev : CModel → Except PyErr Int) (names : List String) (cnt : String) (fb : Bool)
    (hc : ¬ cnt ∈ names)
    (hbp : ∀ m m', build m = Except.ok m' →
      dict_lookup cnt m'.attrs = dict_lookup cnt m.attrs) :
    ∀ (grid : List (List PVal)) (m : CModel) (acc : List (List PVal × Int)) (k : Int),
      dict_lookup cnt m.attrs = Option.some (PVal.int k) →
      ((∃ res, (config_loop build ev names (ResetConfig.callable' (incr_reset cnt)) fb
          grid m acc).1 = Except.ok res) ∧
        dict_lookup cnt (config_loop build ev names
            (ResetConfig.callable' (incr_reset cnt)) fb grid m acc).2.attrs =
          Option.some (PVal.int (k + grid.length))) ∨
      (∃ e j, j < grid.length ∧
        (config_loop build ev names (ResetConfig.callable' (incr_reset cnt)) fb
            grid m acc).1 = Except.error e ∧
        dict_lookup cnt (config_loop build ev names
            (ResetConfig.callable' (incr_reset cnt)) fb grid m acc).2.attrs =
          Option.some (PVal.int (k + j + 1))) := by
  intro grid
  induction grid with
  | nil =>
    intro m acc k hk
    exact Or.inl ⟨⟨acc, rfl⟩, by simpa using hk⟩
  | cons p rest ih =>
    intro m acc k hk
    have hk1 : dict_lookup cnt (set_config m (params_to_dict names p) true).attrs =
        Option.some (PVal.int k) := by
      rw [set_config_lookup_not_mem _ _ _ _ (params_to_dict_keys_not_mem names p cnt hc)]
      exact hk
    have harith : k + 1 + (rest.length : Int) = k + ((p :: rest).length : Int) := by
      simp [List.length_cons]
      ring
    simp only [config_loop]
    by_cases hcond :
        (!(set_config m (params_to_dict names p) true).is_ready || fb) = true
    · rw [if_pos hcond]
      cases hbuild : build (set_config m (params_to_dict names p) true) with
      | error e =>
        simp only [hbuild, apply_reset]
        refine Or.inr ⟨e, 0, by simp, rfl, ?_⟩
        have := incr_reset_lookup cnt _ k hk1
        simpa using this
      | ok m2 =>
        have hb2 : dict_lookup cnt m2.attrs = Option.some (PVal.int k) :=
          (hbp _ _ hbuild).trans hk1
        simp only [hbuild]
        cases hev : ev m2 with
        | error e =>
          simp only [hev, apply_reset]
          refine Or.inr ⟨e, 0, by simp, rfl, ?_⟩
          have := incr_reset_lookup cnt _ k hb2
          simpa using this
        | ok s =>
          simp only [hev, apply_reset]
          rcases ih (incr_reset cnt m2) (dict_insert acc p s) (k + 1)
              (incr_reset_lookup cnt _ k hb2) with ⟨⟨res, h1⟩, h2⟩ | ⟨e, j, hj, h1, h2⟩
          · rw [harith] at h2
            exact Or.inl ⟨⟨res, h1⟩, h2⟩
          · refine Or.inr ⟨e, j + 1, ?_, h1, ?_⟩
            · simp only [List.length_cons]
              omega
            · have harith2 : k + 1 + (j : Int) + 1 = k + ((j + 1 : Nat) : Int) + 1 := by
                push_cast
                ring
              rw [harith2] at h2
              exact h2
    · rw [if_neg hcond]
      cases hev : ev (set_config m (params_to_dict names p) true) with
      | error e =>
        simp only [hev, apply_reset]
        refine Or.inr ⟨e, 0, by simp, rfl, ?_⟩
        have := incr_reset_lookup cnt _ k hk1
        simpa using this
      | ok s =>
        simp only [hev, apply_reset]
        rcases ih (incr_reset cnt (set_config m (params_to_dict names p) true))
            (dict_insert acc p s) (k + 1)
            (incr_reset_lookup cnt _ k hk1) with ⟨⟨res, h1⟩, h2⟩ | ⟨e, j, hj, h1, h2⟩
        · rw [harith] at h2
          exact Or.inl ⟨⟨res, h1⟩, h2⟩
        · refine Or.inr ⟨e, j + 1, ?_, h1, ?_⟩
          · simp only [List.length_cons]
            omega
          · have harith2 : k + 1 + (j : Int) + 1 = k + ((j + 1 : Nat) : Int) + 1 := by
              push_cast
              ring
            rw [harith2] at h2
            exact h2

theorem config_loop_resets_none (build : CModel → Except PyErr CModel)
    (ev : CModel → Except PyErr Int) (names : List String) (cnt : String) (fb : Bool)
    (hc : ¬ cnt ∈ names)
    (hbp : ∀ m m', build m = Except.ok m' →
      dict_lookup cnt m'.attrs = dict_lookup cnt m.attrs) :
    ∀ (grid : List (List PVal)) (m : CModel) (acc : List (List PVal × Int)),
      dict_lookup cnt (config_loop build ev names ResetConfig.none' fb
          grid m acc).2.attrs = dict_lookup cnt m.attrs := by
  intro grid
  induction grid with
  | nil => intro m acc; rfl
  | cons p rest ih =>
    intro m acc
    have hk1 : dict_lookup cnt (set_config m (params_to_dict names p) true).attrs =
        dict_lookup cnt m.attrs :=
      set_config_lookup_not_mem _ _ _ _ (params_to_dict_keys_not_mem names p cnt hc)
    simp only [config_loop]
    by_cases hcond :
        (!(set_config m (params_to_dict names p) true).is_ready || fb) = true
    · rw [if_pos hcond]
      cases hbuild : build (set_config m (params_to_dict names p) true) with
      | error e =>
        simp only [hbuild, apply_reset]
        exact hk1
      | ok m2 =>
        have hb2 : dict_lookup cnt m2.attrs = dict_lookup cnt m.attrs :=
          (hbp _ _ hbuild).trans hk1
        simp only [hbuild]
        cases hev : ev m2 with
        | error e =>
          simp only [hev, apply_reset]
          exact hb2
        | ok s =>
          simp only [hev, apply_reset]
          exact (ih _ _).trans hb2
    · rw [if_neg hcond]
      cases hev : ev (set_config m (params_to_dict names p) true) with
      | error e =>
        simp only [hev, apply_reset]
        exact hk1
      | ok s =>
        simp only [hev, apply_reset]
        exact (ih _ _).trans hk1

theorem find_optimal_config_attrs (build : CModel → Except PyErr CModel)
    (evaluator : CModel → Except PyErr Int) (model : CModel)
    (grid : List (List PVal)) (names : List String) (reset : ResetConfig) (v fb : Bool) :
    (find_optimal_config build evaluator model grid names [] reset v fb).2.attrs =
      (config_loop build evaluator names reset fb grid
        { model with verbose := v } []).2.attrs := by
  simp only [find_optimal_config]
  repeat' split
  all_goals rfl

theorem find_optimal_config_result_error (build : CModel → Except PyErr CModel)
    (evaluator : CModel → Except PyErr Int) (model : CModel)
    (grid : List (List PVal)) (names : List String) (reset : ResetConfig) (v fb : Bool)
    (e : PyErr)
    (h : (config_loop build evaluator names reset fb grid
        { model with verbose := v } []).1 = Except.error e) :
    (find_optimal_config build evaluator model grid names [] reset v fb).1 =
      Except.error e := by
  simp only [find_optimal_config, List.foldl_nil, h]

/-- C5: in find_optimal_config a callable reset_config is invoked exactly
once per trial, for every fallible build and every fallible evaluator
(observed through a counter-bumping callable on a counter attribute that
is not among the searched parameter names and that build leaves alone):
either every trial completes and the counter rises once per grid entry,
or the first raising trial — whether its build or its evaluate raised,
and at any position j after j successful trials — propagates its error
with the counter risen exactly j + 1 times, the last bump applied by the
finally clause of the raising trial before the exception escapes; with
reset_config absent, the counter attribute is unchanged on every run. -/
theorem claim_C5 (build : CModel → Except PyErr CModel) (ev : CModel → Except PyErr Int)
    (names : List String) (cnt : String) (model : CModel) (grid : List (List PVal))
    (v fb : Bool) (k : Int)
    (hc : ¬ cnt ∈ names)
    (hbp : ∀ m m', build m = Except.ok m' →
      dict_lookup cnt m'.attrs = dict_lookup cnt m.attrs)
    (hk : dict_lookup cnt model.attrs = Option.some (PVal.int k)) :
    (((∃ res, (config_loop build ev names (ResetConfig.callable' (incr_reset cnt)) fb
          grid { model with verbose := v } []).1 = Except.ok res) ∧
        dict_lookup cnt (find_optimal_config build ev model grid names []
            (ResetConfig.callable' (incr_reset cnt)) v fb).2.attrs =
          Option.some (PVal.int (k + grid.length))) ∨
      (∃ e j, j < grid.length ∧
        (find_optimal_config build ev model grid names []
            (ResetConfig.callable' (incr_reset cnt)) v fb).1 = Except.error e ∧
        dict_lookup cnt (find_optimal_config build ev model grid names []
            (ResetConfig.callable' (incr_reset cnt)) v fb).2.attrs =
          Option.some (PVal.int (k + j + 1)))) ∧
    dict_lookup cnt (find_optimal_config build ev model grid names []
        ResetConfig.none' v fb).2.attrs = dict_lookup cnt model.attrs := by
  have hk0 : dict_lookup cnt ({ model with verbose := v } : CModel).attrs =
      Option.some (PVal.int k) := hk
  constructor
  · rcases config_loop_resets_count build ev names cnt fb hc hbp grid
        { model with verbose := v } [] k hk0 with ⟨hex, h2⟩ | ⟨e, j, hj, h1, h2⟩
    · refine Or.inl ⟨hex, ?_⟩
      rw [find_optimal_config_attrs]
      exact h2
    · refine Or.inr ⟨e, j, hj, ?_, ?_⟩
      · exact find_optimal_config_result_error _ _ _ _ _ _ _ _ _ h1
      · rw [find_optimal_config_attrs]
        exact h2
  · rw [find_optimal_config_attrs]
    exact config_loop_resets_none build ev names cnt fb hc hbp grid _ []

/-- A concrete ready config-search model carrying a reset counter, for the
C5 witness. -/
def c5_model : CModel :=
  { attrs := [("c", PVal.int 0)], verbose := false, is_ready := true, method := "m" }

theorem claim_C5_witness :
    ((((∃ res, (config_loop (fun m => Except.ok m)
          (fun m => match dict_lookup "a" m.attrs with
            | Option.some (PVal.int 2) => Except.error (PyErr.external 5)
            | _ => Except.ok (0 : Int))
          ["a"] (ResetConfig.callable' (incr_reset "c")) true
          [[PVal.int 1], [PVal.int 2], [PVal.int 3]]
          { c5_model with verbose := false } []).1 = Except.ok res) ∧
        dict_lookup "c" (find_optimal_config (fun m => Except.ok m)
            (fun m => match dict_lookup "a" m.attrs with
              | Option.some (PVal.int 2) => Except.error (PyErr.external 5)
              | _ => Except.ok (0 : Int))
            c5_model [[PVal.int 1], [PVal.int 2], [PVal.int 3]] ["a"] []
            (ResetConfig.callable' (incr_reset "c")) false true).2.attrs =
          Option.some (PVal.int (0 + ([[PVal.int 1], [PVal.int 2], [PVal.int 3]] :
            List (List PVal)).length))) ∨
      (∃ e j, j < ([[PVal.int 1], [PVal.int 2], [PVal.int 3]] : List (List PVal)).length ∧
        (find_optimal_config (fun m => Except.ok m)
            (fun m => match dict_lookup "a" m.attrs with
              | Option.some (PVal.int 2) => Except.error (PyErr.external 5)
              | _ => Except.ok (0 : Int))
            c5_model [[PVal.int 1], [PVal.int 2], [PVal.int 3]] ["a"] []
            (ResetConfig.callable' (incr_reset "c")) false true).1 = Except.error e ∧
        dict_lookup "c" (find_optimal_config (fun m => Except.ok m)
            (fun m => match dict_lookup "a" m.attrs with
              | Option.some (PVal.int 2) => Except.error (PyErr.external 5)
              | _ => Except.ok (0 : Int))
            c5_model [[PVal.int 1], [PVal.int 2], [PVal.int 3]] ["a"] []
            (ResetConfig.callable' (incr_reset "c")) false true).2.attrs =
          Option.some (PVal.int (0 + j + 1)))) ∧
      dict_lookup "c" (find_optimal_config (fun m => Except.ok m)
          (fun m => match dict_lookup "a" m.attrs with
            | Option.some (PVal.int 2) => Except.error (PyErr.external 5)
            | _ => Except.ok (0 : Int))
          c5_model [[PVal.int 1], [PVal.int 2], [PVal.int 3]] ["a"] []
          ResetConfig.none' false true).2.attrs = dict_lookup "c" c5_model.attrs) ∧
    ((((∃ res, (config_loop (fun _ => Except.error (PyErr.external 9))
          (fun _ => Except.ok (0 : Int)) ["a"]
          (ResetConfig.callable' (incr_reset "c")) true [[PVal.int 1], [PVal.int 2]]
          { c5_model with verbose := false } []).1 = Except.ok res) ∧
        dict_lookup "c" (find_optimal_config (fun _ => Except.error (PyErr.external 9))
            (fun _ => Except.ok (0 : Int)) c5_model [[PVal.int 1], [PVal.int 2]] ["a"] []
            (ResetConfig.callable' (incr_reset "c")) false true).2.attrs =
          Option.some (PVal.int (0 + ([[PVal.int 1], [PVal.int 2]] :
            List (List PVal)).length))) ∨
      (∃ e j, j < ([[PVal.int 1], [PVal.int 2]] : List (List PVal)).length ∧
        (find_optimal_config (fun _ => Except.error (PyErr.external 9))
            (fun _ => Except.ok (0 : Int)) c5_model [[PVal.int 1], [PVal.int 2]] ["a"] []
            (ResetConfig.callable' (incr_reset "c")) false true).1 = Except.error e ∧
        dict_lookup "c" (find_optimal_config (fun _ => Except.error (PyErr.external 9))
            (fun _ => Except.ok (0 : Int)) c5_model [[PVal.int 1], [PVal.int 2]] ["a"] []
            (ResetConfig.callable' (incr_reset "c")) false true).2.attrs =
          Option.some (PVal.int (0 + j + 1)))) ∧
      dict_lookup "c" (find_optimal_config (fun _ => Except.error (PyErr.external 9))
          (fun _ => Except.ok (0 : Int)) c5_model [[PVal.int 1], [PVal.int 2]] ["a"] []
          ResetConfig.none' false true).2.attrs = dict_lookup "c" c5_model.attrs) :=
  ⟨claim_C5 (fun m => Except.ok m)
      (fun m => match dict_lookup "a" m.attrs with
        | Option.some (PVal.int 2) => Except.error (PyErr.external 5)
        | _ => Except.ok (0 : Int))
      ["a"] "c" c5_model [[PVal.int 1], [PVal.int 2], [PVal.int 3]] false true 0
      (by decide) (fun m m' h => by injection h with h2; rw [← h2]) rfl,
   claim_C5 (fun _ => Except.error (PyErr.external 9)) (fun _ => Except.ok (0 : Int))
      ["a"] "c" c5_model [[PVal.int 1], [PVal.int 2]] false true 0
      (by decide) (fun m m' h => by simp at h) rfl⟩

theorem random_grid_loop_card {V : Type} [DecidableEq V] [Inhabited V]
    (param_values : List (List V)) (skip : List V → Bool) (chooser : Nat → Nat → Nat)
    (n : Nat) :
    ∀ (fuel i : Nat) (grid skipped g s : Finset (List V)),
      grid.card + skipped.card ≤ n →
      random_grid_loop param_values skip chooser n fuel i grid skipped =
        Option.some (g, s) →
      g.card + s.card = n := by
  intro fuel
  induction fuel with
  | zero =>
    intro i grid skipped g s hle h
    cases h
  | succ fuel ih =>
    intro i grid skipped g s hle h
    simp only [random_grid_loop] at h
    by_cases hcond : ((grid.card : Int) < (n : Int) - (skipped.card : Int))
    · rw [if_pos hcond] at h
      have hlt : grid.card + skipped.card < n := by omega
      by_cases hskip : skip (draw_level chooser i param_values) = true
      · rw [if_pos hskip] at h
        refine ih _ _ _ _ _ ?_ h
        have h1 : (insert (draw_level chooser i param_values) skipped).card ≤
            skipped.card + 1 := Finset.card_insert_le _ _
        omega
      · rw [if_neg hskip] at h
        refine ih _ _ _ _ _ ?_ h
        have h1 : (insert (draw_level chooser i param_values) grid).card ≤
            grid.card + 1 := Finset.card_insert_le _ _
        omega
    · rw [if_neg hcond] at h
      simp only [Option.some.injEq, Prod.mk.injEq] at h
      obtain ⟨rfl, rfl⟩ := h
      omega

theorem random_grid_loop_not_skipped {V : Type} [DecidableEq V] [Inhabited V]
    (param_values : List (List V)) (skip : List V → Bool) (chooser : Nat → Nat → Nat)
    (n : Nat) :
    ∀ (fuel i : Nat) (grid skipped g s : Finset (List V)),
      (∀ c ∈ grid, skip c = false) →
      random_grid_loop param_values skip chooser n fuel i grid skipped =
        Option.some (g, s) →
      ∀ c ∈ g, skip c = false := by
  intro fuel
  induction fuel with
  | zero =>
    intro i grid skipped g s hinv h
    cases h
  | succ fuel ih =>
    intro i grid skipped g s hinv h
    simp only [random_grid_loop] at h
    by_cases hcond : ((grid.card : Int) < (n : Int) - (skipped.card : Int))
    · rw [if_pos hcond] at h
      by_cases hskip : skip (draw_level chooser i param_values) = true
      · rw [if_pos hskip] at h
        exact ih _ _ _ _ _ hinv h
      · rw [if_neg hskip] at h
        refine ih _ _ _ _ _ ?_ h
        intro c hc
        rcases Finset.mem_insert.mp hc with hc | hc
        · rw [hc]
          exact Bool.not_eq_true _ ▸ hskip
        · exact hinv c hc
    · rw [if_neg hcond] at h
      simp only [Option.some.injEq, Prod.mk.injEq] at h
      obtain ⟨rfl, rfl⟩ := h
      exact hinv

theorem random_grid_loop_skipped {V : Type} [DecidableEq V] [Inhabited V]
    (param_values : List (List V)) (skip : List V → Bool) (chooser : Nat → Nat → Nat)
    (n : Nat) :
    ∀ (fuel i : Nat) (grid skipped g s : Finset (List V)),
      (∀ c ∈ skipped, skip c = true) →
      random_grid_loop param_values skip chooser n fuel i grid skipped =
        Option.some (g, s) →
      ∀ c ∈ s, skip c = true := by
  intro fuel
  induction fuel with
  | zero =>
    intro i grid skipped g s hinv h
    cases h
  | succ fuel ih =>
    intro i grid skipped g s hinv h
    simp only [random_grid_loop] at h
    by_cases hcond : ((grid.card : Int) < (n : Int) - (skipped.card : Int))
    · rw [if_pos hcond] at h
      by_cases hskip : skip (draw_level chooser i param_values) = true
      · rw [if_pos hskip] at h
        refine ih _ _ _ _ _ ?_ h
        intro c hc
        rcases Finset.mem_insert.mp hc with hc | hc
        · rw [hc]
          exact hskip
        · exact hinv c hc
      · rw [if_neg hskip] at h
        exact ih _ _ _ _ _ hinv h
    · rw [if_neg hcond] at h
      simp only [Option.some.injEq, Prod.mk.injEq] at h
      obtain ⟨rfl, rfl⟩ := h
      exact hinv

/-- C3: whenever random_grid terminates normally (enough fuel, i.e. the
source loop exits by its own condition rather than by interruption) on an
integer budget with no grid cache, no member of the returned set
satisfies the exclusion predicate, and the budget — min(budget or
full-product size, full-product size) — is exactly accounted for by the
returned set together with the excluded ("skipped") configurations drawn
during the run: |grid| + |skipped| equals the capped budget, and with no
exclusions the returned set alone has exactly that size (for budget 0,
the full Cartesian-product cardinality). -/
theorem claim_C3 {V : Type} [DecidableEq V] [Inhabited V]
    (params : List (String × List V)) (n : Int) (skip : List V → Bool)
    (chooser : Nat → Nat → Nat) (fuel : Nat) (g : Finset (List V)) (names : List String)
    (h : random_grid params (PyObj.int n) Option.none (Option.some skip) chooser fuel =
      Option.some (Except.ok (g, names))) :
    (∀ c ∈ g, skip c = false) ∧
    ∃ k, g.card + k =
        min (if 0 < n then n.toNat else full_grid_size params) (full_grid_size params) ∧
      ((∀ c, skip c = false) → k = 0) := by
  simp only [random_grid, Option.getD_some, Option.getD_none] at h
  by_cases hneg : n < 0
  · rw [if_pos hneg] at h
    exact absurd h (by simp)
  · rw [if_neg hneg] at h
    cases params with
    | nil => exact absurd h (by simp)
    | cons p ps =>
      cases hloop : random_grid_loop ((p :: ps).map Prod.snd) skip chooser
          (min (if 0 < n then n.toNat else full_grid_size (p :: ps))
            (full_grid_size (p :: ps))) fuel 0 ∅ ∅ with
      | none =>
        rw [hloop] at h
        exact absurd h (by simp)
      | some gs =>
        obtain ⟨g', s'⟩ := gs
        rw [hloop] at h
        simp only [Option.some.injEq, Except.ok.injEq, Prod.mk.injEq] at h
        obtain ⟨rfl, -⟩ := h
        have hsum := random_grid_loop_card ((p :: ps).map Prod.snd) skip chooser
          (min (if 0 < n then n.toNat else full_grid_size (p :: ps))
            (full_grid_size (p :: ps))) fuel 0 ∅ ∅ g' s' (by simp) hloop
        have hns := random_grid_loop_not_skipped ((p :: ps).map Prod.snd) skip chooser
          (min (if 0 < n then n.toNat else full_grid_size (p :: ps))
            (full_grid_size (p :: ps))) fuel 0 ∅ ∅ g' s' (by simp) hloop
        have hsk := random_grid_loop_skipped ((p :: ps).map Prod.snd) skip chooser
          (min (if 0 < n then n.toNat else full_grid_size (p :: ps))
            (full_grid_size (p :: ps))) fuel 0 ∅ ∅ g' s' (by simp) hloop
        refine ⟨hns, ⟨s'.card, hsum, ?_⟩⟩
        intro hall
        have hempty : s' = ∅ := by
          refine Finset.eq_empty_iff_forall_not_mem.mpr ?_
          intro c hc
          have h1 := hsk c hc
          rw [hall c] at h1
          exact absurd h1 (by simp)
        rw [hempty]
        exact Finset.card_empty

theorem claim_C3_witness :
    (∀ c ∈ ({[1], [0]} : Finset (List Nat)), (fun _ => false) c = false) ∧
    ∃ k, ({[1], [0]} : Finset (List Nat)).card + k =
        min (if (0 : Int) < 0 then (0 : Int).toNat
             else full_grid_size [("a", [0, 1])])
          (full_grid_size ([("a", [0, 1])] : List (String × List Nat))) ∧
      ((∀ c : List Nat, (fun _ => false) c = false) → k = 0) :=
  claim_C3 [("a", [0, 1])] 0 (fun _ => false) (fun i _ => i) 4 {[1], [0]} ["a"]
    (by decide)
